import Mathlib

/-!
# Verification of the three-service todo application

Shallow embedding of the data model and operations of the three Python
services (`todo_app.py`, `user_app.py`, `frontend_app.py`).

Each SQLite-backed store is modelled as a list of rows in insertion order
(which is the order the default, un-ordered SELECT returns rows in) together
with the auto-increment counter for the next primary key.  Timestamps
(`datetime.utcnow`) are modelled as natural numbers supplied by the caller of
`create_todo`; chronological insertion (`now` monotone across inserts) is an
explicit hypothesis where a theorem needs it.  HTTP status codes are kept
verbatim (200, 201, 404, 409, 401).
-/

namespace TodoService

/-- Row of the `Todo` table of `todo_app.py`: primary key `id`, `description`,
caller-supplied `user_id`, and `created_at` timestamp assigned at insertion. -/
structure Todo where
  id : Nat
  description : String
  user_id : Nat
  created_at : Nat
deriving Repr, DecidableEq

/-- The JSON rendering of a todo returned by every endpoint of
`todo_app.py`: the `user_id` column is never serialized. -/
structure TodoView where
  id : Nat
  description : String
  created_at : Nat
deriving Repr, DecidableEq

def Todo.toView (t : Todo) : TodoView :=
  ⟨t.id, t.description, t.created_at⟩

/-- `todos.db`: rows in insertion order plus the auto-increment counter. -/
structure TodoStore where
  rows : List Todo
  nextId : Nat
deriving Repr, DecidableEq

/-- Well-formedness maintained by SQLite's primary-key auto-increment:
every existing id is below the counter. -/
def TodoStore.WF (s : TodoStore) : Prop :=
  ∀ t ∈ s.rows, t.id < s.nextId

instance (s : TodoStore) : Decidable s.WF := by
  unfold TodoStore.WF; infer_instance

/-- Rows are in chronological order of creation: `created_at` is
nondecreasing along insertion order.  Holds in the running service because
`datetime.utcnow` is nondecreasing across successive inserts. -/
def TodoStore.Chronological (s : TodoStore) : Prop :=
  (s.rows.map Todo.created_at).Pairwise (· ≤ ·)

/-- `GET /todos` (`get_todos` in `todo_app.py`): filter the table by the
`user_id` query parameter and return the matching rows as JSON.  There is no
failure branch: the response status is always 200. -/
def get_todos (s : TodoStore) (user_id : Nat) : Nat × List TodoView :=
  (200, (s.rows.filter (fun t => t.user_id == user_id)).map Todo.toView)

/-- `POST /todos` (`create_todo` in `todo_app.py`): insert a row built from
the request body's `description` and `user_id`, with the next primary key and
the current time, and answer 201 with the new row.  Note there is no
validation of `description` (empty strings are accepted) and no check of
`user_id` against the user service. -/
def create_todo (s : TodoStore) (now : Nat) (user_id : Nat)
    (description : String) : TodoStore × Nat × TodoView :=
  let new_todo : Todo := ⟨s.nextId, description, user_id, now⟩
  (⟨s.rows ++ [new_todo], s.nextId + 1⟩, 201, new_todo.toView)

/-- `PUT /todos/<todo_id>` (`update_todo` in `todo_app.py`):
`get_or_404` the row with primary key `todo_id`; if absent answer 404 and
change nothing, otherwise overwrite only its `description` column and answer
200 with the updated row. -/
def update_todo (s : TodoStore) (todo_id : Nat)
    (description : String) : TodoStore × Nat × Option TodoView :=
  match s.rows.find? (fun t => t.id == todo_id) with
  | none => (s, 404, none)
  | some t =>
      let rows := s.rows.map (fun r =>
        if r.id == todo_id then { r with description := description } else r)
      (⟨rows, s.nextId⟩, 200, some ⟨t.id, description, t.created_at⟩)

/-- `DELETE /todos/<todo_id>` (`delete_todo` in `todo_app.py`):
`get_or_404` the row with primary key `todo_id`; if absent answer 404 and
change nothing, otherwise delete that row (ids are the primary key, so
removing every row with this id removes exactly it) and answer 200. -/
def delete_todo (s : TodoStore) (todo_id : Nat) : TodoStore × Nat :=
  match s.rows.find? (fun t => t.id == todo_id) with
  | none => (s, 404)
  | some _ => (⟨s.rows.filter (fun t => ¬ t.id == todo_id), s.nextId⟩, 200)

end TodoService

namespace UserService

/-- Row of the `User` table of `user_app.py`. -/
structure User where
  id : Nat
  username : String
  password : String
deriving Repr, DecidableEq

/-- `users.db`: rows in insertion order plus the auto-increment counter. -/
structure UserStore where
  rows : List User
  nextId : Nat
deriving Repr, DecidableEq

/-- Primary-key well-formedness: every existing id is below the counter. -/
def UserStore.WF (s : UserStore) : Prop :=
  ∀ u ∈ s.rows, u.id < s.nextId

instance (s : UserStore) : Decidable s.WF := by
  unfold UserStore.WF; infer_instance

/-- `POST /create` (`create_user` in `user_app.py`): if a row with this
username exists answer 409 with an error body, otherwise insert the row and
answer 201 with `{id, username}`. -/
def create_user (s : UserStore) (username password : String) :
    UserStore × Nat × Option (Nat × String) :=
  match s.rows.find? (fun u => u.username == username) with
  | some _ => (s, 409, none)
  | none =>
      let new_user : User := ⟨s.nextId, username, password⟩
      (⟨s.rows ++ [new_user], s.nextId + 1⟩, 201,
        some (new_user.id, new_user.username))

/-- `POST /login` (`login` in `user_app.py`): look up a row matching both
username and password; answer 200 with `{id, username}` when found, and a
bare 401 (empty body, no detail on which field mismatched) otherwise. -/
def login (s : UserStore) (username password : String) :
    Nat × Option (Nat × String) :=
  match s.rows.find? (fun u => u.username == username && u.password == password) with
  | some u => (200, some (u.id, u.username))
  | none => (401, none)

end UserService

namespace Frontend

/-- The `current_user` JSON kept by `frontend_app.py` after a successful
login: the `{id, username}` body returned by the user service. -/
structure Session where
  id : Nat
  username : String
deriving Repr, DecidableEq

/-- An HTTP request the frontend may send to the todo service. -/
inductive Request where
  | listTasks (user_id : Nat)
  | createTask (user_id : Nat) (description : String)
  | updateTask (todo_id : Nat) (description : String)
  | deleteTask (todo_id : Nat)
deriving Repr, DecidableEq

/-- A todo-service response as the frontend sees it: the status code and the
JSON body read as a list of todos (only `load_todos` inspects the body). -/
structure Response where
  status : Nat
  body : List TodoService.TodoView
deriving Repr, DecidableEq

/-- The mutable module-level state of `frontend_app.py`: the globals
`current_user` and `todos` (the View State). -/
structure FrontendState where
  current_user : Option Session
  todos : List TodoService.TodoView
deriving Repr, DecidableEq

/-- What running one event handler produces: the new global state, the
requests it sent to the todo service (in order), and the `ui.notify`
messages it surfaced (in order). -/
structure HandlerResult where
  state : FrontendState
  requests : List Request
  notices : List String
deriving Repr, DecidableEq

/-- The network is modelled as a function from request to the response the
frontend received for it during the handler's run. -/
def Env : Type := Request → Response

/-- `load_todos` in `frontend_app.py`: does nothing when `current_user` is
unset; otherwise GETs `/todos?user_id=...` and, on a 200, replaces the
global `todos` wholesale with the response body; on any other status it only
notifies and leaves `todos` unchanged. -/
def load_todos (env : Env) (fs : FrontendState) : HandlerResult :=
  match fs.current_user with
  | none => ⟨fs, [], []⟩
  | some u =>
      let r := env (.listTasks u.id)
      if r.status = 200 then
        ⟨{ fs with todos := r.body }, [.listTasks u.id], []⟩
      else
        ⟨fs, [.listTasks u.id], ["Failed to load todos!"]⟩

/-- `add_todo` in `frontend_app.py`: does nothing when `current_user` is
unset; otherwise POSTs the new todo and, on a 201, notifies success and
re-runs `load_todos`; on any other status it only notifies failure. -/
def add_todo (env : Env) (fs : FrontendState) (description : String) :
    HandlerResult :=
  match fs.current_user with
  | none => ⟨fs, [], []⟩
  | some u =>
      let r := env (.createTask u.id description)
      if r.status = 201 then
        let l := load_todos env fs
        ⟨l.state, .createTask u.id description :: l.requests,
          "Todo added!" :: l.notices⟩
      else
        ⟨fs, [.createTask u.id description], ["Failed to add todo!"]⟩

/-- `delete_todo` in `frontend_app.py`: sends the DELETE request without
checking `current_user`; on a 200 it notifies success and re-runs
`load_todos`; on any other status it only notifies failure. -/
def delete_todo (env : Env) (fs : FrontendState) (todo_id : Nat) :
    HandlerResult :=
  let r := env (.deleteTask todo_id)
  if r.status = 200 then
    let l := load_todos env fs
    ⟨l.state, .deleteTask todo_id :: l.requests, "Todo deleted!" :: l.notices⟩
  else
    ⟨fs, [.deleteTask todo_id], ["Failed to delete todo!"]⟩

/-- `edit_todo` in `frontend_app.py`: sends the PUT request without checking
`current_user`; on a 200 it notifies success and re-runs `load_todos`; on
any other status it only notifies failure. -/
def edit_todo (env : Env) (fs : FrontendState) (todo_id : Nat)
    (new_description : String) : HandlerResult :=
  let r := env (.updateTask todo_id new_description)
  if r.status = 200 then
    let l := load_todos env fs
    ⟨l.state, .updateTask todo_id new_description :: l.requests,
      "Todo edited!" :: l.notices⟩
  else
    ⟨fs, [.updateTask todo_id new_description], ["Failed to edit todo!"]⟩

end Frontend

instance (s : TodoService.TodoStore) : Decidable s.Chronological := by
  unfold TodoService.TodoStore.Chronological; infer_instance

open TodoService UserService Frontend in
/-- Claim C3, counterexample: `createTask` does not reject an empty
description.  On the empty store, creating a todo with description `""`
answers 201 (success) and persists a record with empty description — the
claim says it must fail with `InvalidInput` and persist nothing. -/
theorem c3_counterexample :
    (TodoService.create_todo ⟨[], 1⟩ 0 7 "").2.1 = 201 ∧
    (TodoService.create_todo ⟨[], 1⟩ 0 7 "").1.rows = [⟨1, "", 7, 0⟩] :=
  ⟨rfl, rfl⟩

/-- Claim C3, amended: `createTask` never fails.  For every description,
empty or not, it answers 201, returns the new record carrying the next
primary key and the current timestamp, persists exactly that record at the
end of the table (the id being fresh by the primary-key invariant), and
preserves the invariant.  No `InvalidInput` branch exists in the code. -/
theorem c3_createTask_total (s : TodoService.TodoStore) (now user_id : Nat)
    (description : String) (hwf : s.WF) :
    (TodoService.create_todo s now user_id description).2.1 = 201 ∧
    (TodoService.create_todo s now user_id description).2.2 =
      ⟨s.nextId, description, now⟩ ∧
    (∀ t ∈ s.rows, t.id ≠ s.nextId) ∧
    (TodoService.create_todo s now user_id description).1.rows =
      s.rows ++ [⟨s.nextId, description, user_id, now⟩] ∧
    (TodoService.create_todo s now user_id description).1.WF := by
  refine ⟨rfl, rfl, ?_, rfl, ?_⟩
  · exact fun t ht => Nat.ne_of_lt (hwf t ht)
  · intro t ht
    simp only [TodoService.create_todo, List.mem_append, List.mem_singleton] at ht
    rcases ht with ht | ht
    · exact Nat.lt_succ_of_lt (hwf t ht)
    · subst ht; exact Nat.lt_succ_self _

/-- Witness for the amended C3 at a concrete store. -/
theorem c3_witness :
    TodoService.TodoStore.WF ⟨[⟨1, "a", 7, 0⟩], 2⟩ ∧
    (TodoService.create_todo ⟨[⟨1, "a", 7, 0⟩], 2⟩ 5 7 "").2.1 = 201 :=
  ⟨by decide, (c3_createTask_total ⟨[⟨1, "a", 7, 0⟩], 2⟩ 5 7 "" (by decide)).1⟩

/-- Claim C4: `listTasks(ownerId)` always answers 200 (it never errors,
also on an owner with no rows), its body holds exactly the stored todos
whose owner column equals `ownerId`, the body is ordered by creation time
ascending (given that rows were inserted in chronological order, which the
monotone clock guarantees), and it is empty when no row matches. -/
theorem c4_listTasks (s : TodoService.TodoStore) (user_id : Nat)
    (hchron : s.Chronological) :
    (TodoService.get_todos s user_id).1 = 200 ∧
    (∀ v, v ∈ (TodoService.get_todos s user_id).2 ↔
      ∃ t ∈ s.rows, t.user_id = user_id ∧ t.toView = v) ∧
    ((TodoService.get_todos s user_id).2.map
      TodoService.TodoView.created_at).Pairwise (· ≤ ·) ∧
    ((∀ t ∈ s.rows, t.user_id ≠ user_id) →
      (TodoService.get_todos s user_id).2 = []) := by
  refine ⟨rfl, ?_, ?_, ?_⟩
  · intro v
    simp only [TodoService.get_todos, List.mem_map, List.mem_filter, beq_iff_eq]
    constructor
    · rintro ⟨t, ⟨ht, hp⟩, rfl⟩
      exact ⟨t, ht, hp, rfl⟩
    · rintro ⟨t, ht, hu, rfl⟩
      exact ⟨t, ⟨ht, hu⟩, rfl⟩
  · have h1 : (TodoService.get_todos s user_id).2.map
        TodoService.TodoView.created_at
        = (s.rows.filter (fun t => t.user_id == user_id)).map
            TodoService.Todo.created_at := by
      simp only [TodoService.get_todos, List.map_map]
      exact List.map_congr_left (fun a _ => rfl)
    rw [h1]
    exact hchron.sublist ((List.filter_sublist s.rows).map _)
  · intro hnone
    simp only [TodoService.get_todos, List.map_eq_nil_iff, List.filter_eq_nil_iff,
      beq_iff_eq]
    exact hnone

/-- Witness for C4 at a concrete two-row store. -/
theorem c4_witness :
    TodoService.TodoStore.Chronological ⟨[⟨1, "a", 7, 0⟩, ⟨2, "b", 9, 3⟩], 3⟩ ∧
    (TodoService.get_todos ⟨[⟨1, "a", 7, 0⟩, ⟨2, "b", 9, 3⟩], 3⟩ 7).1 = 200 :=
  ⟨by decide,
    (c4_listTasks ⟨[⟨1, "a", 7, 0⟩, ⟨2, "b", 9, 3⟩], 3⟩ 7 (by decide)).1⟩

/-- Claim C7: `updateTask(id, newDescription)` answers 404 (`NotFound`) and
changes nothing when no row has this id; when one does, it answers 200 with
the updated record (same id, new description, original timestamp), and the
table is changed row-for-row so that every row keeps its id, timestamp and
owner, rows with a different id are untouched, and the row with this id gets
exactly the new description. -/
theorem c7_updateTask (s : TodoService.TodoStore) (todo_id : Nat)
    (d : String) :
    ((∀ t ∈ s.rows, t.id ≠ todo_id) →
      TodoService.update_todo s todo_id d = (s, 404, none)) ∧
    ((∃ t ∈ s.rows, t.id = todo_id) →
      (TodoService.update_todo s todo_id d).2.1 = 200 ∧
      (∃ t0 ∈ s.rows, t0.id = todo_id ∧
        (TodoService.update_todo s todo_id d).2.2 =
          some ⟨todo_id, d, t0.created_at⟩) ∧
      (TodoService.update_todo s todo_id d).1.nextId = s.nextId ∧
      List.Forall₂ (fun old new =>
          new.id = old.id ∧ new.created_at = old.created_at ∧
          new.user_id = old.user_id ∧
          (old.id ≠ todo_id → new = old) ∧
          (old.id = todo_id → new.description = d))
        s.rows (TodoService.update_todo s todo_id d).1.rows) := by
  constructor
  · intro hnone
    have hfind : s.rows.find? (fun t => t.id == todo_id) = none :=
      List.find?_eq_none.mpr (fun t ht => by
        simp only [beq_iff_eq]; exact hnone t ht)
    simp [TodoService.update_todo, hfind]
  · rintro ⟨t, ht, htid⟩
    have hsome : (s.rows.find? (fun t => t.id == todo_id)).isSome := by
      rw [List.find?_isSome]
      exact ⟨t, ht, by simpa using htid⟩
    rcases Option.isSome_iff_exists.mp hsome with ⟨t0, hfind⟩
    have ht0mem : t0 ∈ s.rows := List.mem_of_find?_eq_some hfind
    have ht0id : t0.id = todo_id := by
      have := List.find?_some hfind
      simpa using this
    refine ⟨?_, ?_, ?_, ?_⟩
    · simp [TodoService.update_todo, hfind]
    · refine ⟨t0, ht0mem, ht0id, ?_⟩
      simp [TodoService.update_todo, hfind, ht0id]
    · simp [TodoService.update_todo, hfind]
    · have hrows : (TodoService.update_todo s todo_id d).1.rows =
          s.rows.map (fun r =>
            if r.id == todo_id then { r with description := d } else r) := by
        simp [TodoService.update_todo, hfind]
      rw [hrows, List.forall₂_map_right_iff, List.forall₂_same]
      intro r _
      by_cases hr : r.id = todo_id
      · simp [hr]
      · simp [hr]

/-- Witness for C7: concrete update of an existing row. -/
theorem c7_witness :
    (∃ t ∈ ([⟨1, "a", 7, 0⟩] : List TodoService.Todo), t.id = 1) ∧
    (TodoService.update_todo ⟨[⟨1, "a", 7, 0⟩], 2⟩ 1 "b").2.1 = 200 := by
  have hex : ∃ t ∈ ([⟨1, "a", 7, 0⟩] : List TodoService.Todo), t.id = 1 := by
    decide
  exact ⟨hex, ((c7_updateTask ⟨[⟨1, "a", 7, 0⟩], 2⟩ 1 "b").2 hex).1⟩

/-- Helper: `delete_todo` answers 404 and changes nothing when the
primary-key lookup finds no row. -/
theorem delete_todo_not_found (s : TodoService.TodoStore) (todo_id : Nat)
    (h : s.rows.find? (fun t => t.id == todo_id) = none) :
    TodoService.delete_todo s todo_id = (s, 404) := by
  simp [TodoService.delete_todo, h]

/-- Claim C8: `deleteTask(id)` answers 200 exactly when a row with this id
exists; with no such row it answers 404 and changes nothing; with one, it
removes that record (no row with this id survives, every other row does),
so deleting the same id again answers 404. -/
theorem c8_deleteTask (s : TodoService.TodoStore) (todo_id : Nat) :
    ((TodoService.delete_todo s todo_id).2 = 200 ↔
      ∃ t ∈ s.rows, t.id = todo_id) ∧
    ((∀ t ∈ s.rows, t.id ≠ todo_id) →
      TodoService.delete_todo s todo_id = (s, 404)) ∧
    ((∃ t ∈ s.rows, t.id = todo_id) →
      (∀ t ∈ (TodoService.delete_todo s todo_id).1.rows, t.id ≠ todo_id) ∧
      (∀ t ∈ s.rows, t.id ≠ todo_id →
        t ∈ (TodoService.delete_todo s todo_id).1.rows) ∧
      (TodoService.delete_todo
        (TodoService.delete_todo s todo_id).1 todo_id).2 = 404) := by
  have hnonecase : ∀ (hnone : ∀ t ∈ s.rows, t.id ≠ todo_id),
      TodoService.delete_todo s todo_id = (s, 404) := by
    intro hnone
    exact delete_todo_not_found s todo_id
      (List.find?_eq_none.mpr (fun t ht => by
        simp only [beq_iff_eq]; exact hnone t ht))
  have hsomecase : ∀ (hex : ∃ t ∈ s.rows, t.id = todo_id),
      (TodoService.delete_todo s todo_id).1.rows =
        s.rows.filter (fun t => ¬ t.id == todo_id) ∧
      (TodoService.delete_todo s todo_id).2 = 200 := by
    rintro ⟨t, ht, htid⟩
    have hsome : (s.rows.find? (fun t => t.id == todo_id)).isSome := by
      rw [List.find?_isSome]
      exact ⟨t, ht, by simpa using htid⟩
    rcases Option.isSome_iff_exists.mp hsome with ⟨t0, hfind⟩
    constructor <;> simp [TodoService.delete_todo, hfind]
  refine ⟨?_, hnonecase, ?_⟩
  · constructor
    · intro h200
      by_contra hno
      push_neg at hno
      have := hnonecase (by
        intro t ht
        exact hno t ht)
      rw [this] at h200
      exact absurd (show (404 : Nat) = 200 from h200) (by decide)
    · intro hex
      exact (hsomecase hex).2
  · intro hex
    rcases hsomecase hex with ⟨hrows, _⟩
    have hgone : ∀ t ∈ (TodoService.delete_todo s todo_id).1.rows,
        t.id ≠ todo_id := by
      intro t ht
      rw [hrows] at ht
      have := (List.mem_filter.mp ht).2
      simpa using this
    refine ⟨hgone, ?_, ?_⟩
    · intro t ht htne
      rw [hrows]
      exact List.mem_filter.mpr ⟨ht, by simpa using htne⟩
    · have hfind2 : ((TodoService.delete_todo s todo_id).1.rows.find?
          (fun t => t.id == todo_id)) = none :=
        List.find?_eq_none.mpr (fun t ht => by
          simp only [beq_iff_eq]; exact hgone t ht)
      rw [delete_todo_not_found _ _ hfind2]

/-- Witness for C8: concrete double delete of an existing id. -/
theorem c8_witness :
    (∃ t ∈ ([⟨1, "a", 7, 0⟩] : List TodoService.Todo), t.id = 1) ∧
    (TodoService.delete_todo
      (TodoService.delete_todo ⟨[⟨1, "a", 7, 0⟩], 2⟩ 1).1 1).2 = 404 := by
  have hex : ∃ t ∈ ([⟨1, "a", 7, 0⟩] : List TodoService.Todo), t.id = 1 := by
    decide
  exact ⟨hex, ((c8_deleteTask ⟨[⟨1, "a", 7, 0⟩], 2⟩ 1).2.2 hex).2.2⟩

/-- Claim C10: `updateTask` leaves every row's owner column unchanged (as
well as its id): the id-to-owner association of the whole table is the same
before and after, so an update can never move a todo to another owner. -/
theorem c10_updateTask_preserves_owner (s : TodoService.TodoStore)
    (todo_id : Nat) (d : String) :
    (TodoService.update_todo s todo_id d).1.rows.map
        (fun t => (t.id, t.user_id)) =
      s.rows.map (fun t => (t.id, t.user_id)) := by
  rcases hfind : s.rows.find? (fun t => t.id == todo_id) with _ | t0
  · simp [TodoService.update_todo, hfind]
  · have hrows : (TodoService.update_todo s todo_id d).1.rows =
        s.rows.map (fun r =>
          if r.id == todo_id then { r with description := d } else r) := by
      simp [TodoService.update_todo, hfind]
    rw [hrows, List.map_map]
    refine List.map_congr_left ?_
    intro r _
    by_cases hr : r.id = todo_id <;> simp [Function.comp, hr]

/-- Helper: `create_user` answers 409 and changes nothing when the
username lookup finds an existing row. -/
theorem create_user_conflict (s : UserService.UserStore) (u q : String)
    (r0 : UserService.User)
    (h : s.rows.find? (fun r => r.username == u) = some r0) :
    UserService.create_user s u q = (s, 409, none) := by
  simp [UserService.create_user, h]

/-- Claim C5: `createUser` answers 409 (`Conflict`) exactly when the
username is already taken.  On a store where the username is new, the first
call answers 201 with a fresh id (fresh by the primary-key invariant) and
appends the record; an immediate second call with the same username answers
409 and leaves the store unchanged: exactly one success and one conflict. -/
theorem c5_createUser (s : UserService.UserStore) (u p p2 : String)
    (hnew : ∀ r ∈ s.rows, r.username ≠ u) (hwf : s.WF) :
    (UserService.create_user s u p).2.1 = 201 ∧
    (UserService.create_user s u p).2.2 = some (s.nextId, u) ∧
    (∀ r ∈ s.rows, r.id ≠ s.nextId) ∧
    (UserService.create_user s u p).1.rows = s.rows ++ [⟨s.nextId, u, p⟩] ∧
    (UserService.create_user (UserService.create_user s u p).1 u p2).2.1 =
      409 ∧
    (UserService.create_user (UserService.create_user s u p).1 u p2).1 =
      (UserService.create_user s u p).1 ∧
    (∀ (s2 : UserService.UserStore) (q : String),
      ((UserService.create_user s2 u q).2.1 = 409 ↔
        ∃ r ∈ s2.rows, r.username = u)) := by
  have hfind : s.rows.find? (fun r => r.username == u) = none :=
    List.find?_eq_none.mpr (fun r hr => by
      simp only [beq_iff_eq]; exact hnew r hr)
  have hfirst : UserService.create_user s u p =
      (⟨s.rows ++ [⟨s.nextId, u, p⟩], s.nextId + 1⟩, 201,
        some (s.nextId, u)) := by
    simp [UserService.create_user, hfind]
  have hgeneral : ∀ (s2 : UserService.UserStore) (q : String),
      ((UserService.create_user s2 u q).2.1 = 409 ↔
        ∃ r ∈ s2.rows, r.username = u) := by
    intro s2 q
    rcases hf2 : s2.rows.find? (fun r => r.username == u) with _ | r0
    · constructor
      · intro h409
        have : (UserService.create_user s2 u q).2.1 = 201 := by
          simp [UserService.create_user, hf2]
        rw [this] at h409
        exact absurd h409 (by decide)
      · rintro ⟨r, hr, hru⟩
        have := List.find?_eq_none.mp hf2 r hr
        simp [hru] at this
    · constructor
      · intro _
        exact ⟨r0, List.mem_of_find?_eq_some hf2, by
          simpa using List.find?_some hf2⟩
      · intro _
        simp [UserService.create_user, hf2]
  refine ⟨by rw [hfirst], by rw [hfirst], ?_, by rw [hfirst], ?_, ?_, hgeneral⟩
  · exact fun r hr => Nat.ne_of_lt (hwf r hr)
  · have hmem : (⟨s.nextId, u, p⟩ : UserService.User) ∈
        (UserService.create_user s u p).1.rows := by
      rw [hfirst]; simp
    rcases hf2 : (UserService.create_user s u p).1.rows.find?
        (fun r => r.username == u) with _ | r0
    · exact absurd (List.find?_eq_none.mp hf2 _ hmem) (by simp)
    · rw [create_user_conflict _ _ _ _ hf2]
  · rcases hf2 : (UserService.create_user s u p).1.rows.find?
        (fun r => r.username == u) with _ | r0
    · have hmem : (⟨s.nextId, u, p⟩ : UserService.User) ∈
          (UserService.create_user s u p).1.rows := by
        rw [hfirst]; simp
      exact absurd (List.find?_eq_none.mp hf2 _ hmem) (by simp)
    · rw [create_user_conflict _ _ _ _ hf2]

/-- Witness for C5 at a concrete store. -/
theorem c5_witness :
    (∀ r ∈ ([⟨1, "bob", "x"⟩] : List UserService.User), r.username ≠ "alice") ∧
    UserService.UserStore.WF ⟨[⟨1, "bob", "x"⟩], 2⟩ ∧
    (UserService.create_user
      (UserService.create_user ⟨[⟨1, "bob", "x"⟩], 2⟩ "alice" "pw1").1
      "alice" "pw2").2.1 = 409 := by
  have h1 : ∀ r ∈ ([⟨1, "bob", "x"⟩] : List UserService.User),
      r.username ≠ "alice" := by decide
  have h2 : UserService.UserStore.WF ⟨[⟨1, "bob", "x"⟩], 2⟩ := by decide
  exact ⟨h1, h2,
    (c5_createUser ⟨[⟨1, "bob", "x"⟩], 2⟩ "alice" "pw1" "pw2" h1 h2).2.2.2.2.1⟩

/-- Claim C6: `authenticate` answers 200 exactly when a stored row matches
both username and password; on success it answers that row's id and
username; any non-match (unknown username included) gets the same bare
`(401, none)` answer, carrying no detail about which field mismatched.
After `createUser(u, p)` on a store where `u` was free, `authenticate(u, p)`
answers 200 with the id assigned at creation, and `authenticate(u, p2)`
with `p2 ≠ p` answers 401. -/
theorem c6_authenticate (s : UserService.UserStore) (u p p2 : String)
    (hnew : ∀ r ∈ s.rows, r.username ≠ u) (hne : p2 ≠ p) :
    (∀ (s2 : UserService.UserStore) (a b : String),
      ((UserService.login s2 a b).1 = 200 ↔
        ∃ r ∈ s2.rows, r.username = a ∧ r.password = b)) ∧
    (∀ (s2 : UserService.UserStore) (a b : String),
      (¬ ∃ r ∈ s2.rows, r.username = a ∧ r.password = b) →
        UserService.login s2 a b = (401, none)) ∧
    (∀ (s2 : UserService.UserStore) (a b : String) (res : Nat × String),
      (UserService.login s2 a b).2 = some res →
        ∃ r ∈ s2.rows, r.username = a ∧ r.password = b ∧
          res = (r.id, r.username)) ∧
    UserService.login (UserService.create_user s u p).1 u p =
      (200, some (s.nextId, u)) ∧
    UserService.login (UserService.create_user s u p).1 u p2 =
      (401, none) := by
  have hmatch : ∀ (r : UserService.User) (a b : String),
      (r.username == a && r.password == b) = true ↔
        (r.username = a ∧ r.password = b) := by
    intro r a b
    simp
  have hgen1 : ∀ (s2 : UserService.UserStore) (a b : String),
      ((UserService.login s2 a b).1 = 200 ↔
        ∃ r ∈ s2.rows, r.username = a ∧ r.password = b) := by
    intro s2 a b
    rcases hf : s2.rows.find? (fun r => r.username == a && r.password == b)
        with _ | r0
    · constructor
      · intro h200
        have : (UserService.login s2 a b).1 = 401 := by
          simp [UserService.login, hf]
        rw [this] at h200
        exact absurd h200 (by decide)
      · rintro ⟨r, hr, hru, hrp⟩
        have := List.find?_eq_none.mp hf r hr
        simp [hru, hrp] at this
    · constructor
      · intro _
        refine ⟨r0, List.mem_of_find?_eq_some hf, ?_⟩
        have hp := List.find?_some hf
        simp only [Bool.and_eq_true, beq_iff_eq] at hp
        exact hp
      · intro _
        simp [UserService.login, hf]
  have hgen2 : ∀ (s2 : UserService.UserStore) (a b : String),
      (¬ ∃ r ∈ s2.rows, r.username = a ∧ r.password = b) →
        UserService.login s2 a b = (401, none) := by
    intro s2 a b hno
    have hf : s2.rows.find? (fun r => r.username == a && r.password == b)
        = none := by
      refine List.find?_eq_none.mpr (fun r hr hcontra => ?_)
      exact hno ⟨r, hr, (hmatch r a b).mp hcontra⟩
    simp [UserService.login, hf]
  have hcreate : (UserService.create_user s u p).1.rows =
      s.rows ++ [⟨s.nextId, u, p⟩] := by
    have hfind : s.rows.find? (fun r => r.username == u) = none :=
      List.find?_eq_none.mpr (fun r hr => by
        simp only [beq_iff_eq]; exact hnew r hr)
    simp [UserService.create_user, hfind]
  refine ⟨hgen1, hgen2, ?_, ?_, ?_⟩
  · intro s2 a b res hres
    rcases hf : s2.rows.find? (fun r => r.username == a && r.password == b)
        with _ | r0
    · simp [UserService.login, hf] at hres
    · have : (UserService.login s2 a b).2 = some (r0.id, r0.username) := by
        simp [UserService.login, hf]
      rw [this] at hres
      have hp := List.find?_some hf
      simp only [Bool.and_eq_true, beq_iff_eq] at hp
      rcases hp with ⟨hru, hrp⟩
      exact ⟨r0, List.mem_of_find?_eq_some hf, hru, hrp,
        (Option.some_inj.mp hres).symm⟩
  · have hf : (UserService.create_user s u p).1.rows.find?
        (fun r => r.username == u && r.password == p) =
          some ⟨s.nextId, u, p⟩ := by
      rw [hcreate, List.find?_append]
      have hl : s.rows.find? (fun r => r.username == u && r.password == p)
          = none := by
        refine List.find?_eq_none.mpr (fun r hr hcontra => ?_)
        exact hnew r hr ((hmatch r u p).mp hcontra).1
      rw [hl]
      simp
    simp [UserService.login, hf]
  · have hf : (UserService.create_user s u p).1.rows.find?
        (fun r => r.username == u && r.password == p2) = none := by
      rw [hcreate]
      refine List.find?_eq_none.mpr (fun r hr hcontra => ?_)
      rcases List.mem_append.mp hr with hr | hr
      · exact hnew r hr ((hmatch r u p2).mp hcontra).1
      · rcases List.mem_singleton.mp hr with rfl
        exact hne ((hmatch _ u p2).mp hcontra).2.symm
    simp [UserService.login, hf]

/-- Witness for C6: concrete create-then-login round trip. -/
theorem c6_witness :
    (∀ r ∈ ([] : List UserService.User), r.username ≠ "alice") ∧
    ("pw2" : String) ≠ "pw1" ∧
    UserService.login
      (UserService.create_user ⟨[], 1⟩ "alice" "pw1").1 "alice" "pw1" =
      (200, some (1, "alice")) := by
  have h1 : ∀ r ∈ ([] : List UserService.User), r.username ≠ "alice" := by
    simp
  have h2 : ("pw2" : String) ≠ "pw1" := by decide
  exact ⟨h1, h2,
    (c6_authenticate ⟨[], 1⟩ "alice" "pw1" "pw2" h1 h2).2.2.2.1⟩

/-- Claim C9: the Task Store trusts the caller-supplied owner id.
`create_todo` takes no reference to the user store at all; for any user
store in which the owner id belongs to no user, creating a task with a
non-empty description still answers 201 and the created todo is returned by
a subsequent `listTasks` for that owner. -/
theorem c9_createTask_no_owner_check (s : TodoService.TodoStore)
    (now o : Nat) (d : String) (us : UserService.UserStore)
    (_hghost : ∀ r ∈ us.rows, r.id ≠ o) (_hd : d ≠ "") :
    (TodoService.create_todo s now o d).2.1 = 201 ∧
    (⟨s.nextId, d, now⟩ : TodoService.TodoView) ∈
      (TodoService.get_todos (TodoService.create_todo s now o d).1 o).2 := by
  refine ⟨rfl, ?_⟩
  simp only [TodoService.get_todos, TodoService.create_todo, List.mem_map,
    List.mem_filter]
  refine ⟨⟨s.nextId, d, o, now⟩, ⟨?_, by simp⟩, rfl⟩
  simp

/-- Witness for C9: a ghost owner id absent from a concrete user store. -/
theorem c9_witness :
    (∀ r ∈ ([⟨1, "alice", "pw"⟩] : List UserService.User), r.id ≠ 99) ∧
    ("buy milk" : String) ≠ "" ∧
    (⟨1, "buy milk", 5⟩ : TodoService.TodoView) ∈
      (TodoService.get_todos
        (TodoService.create_todo ⟨[], 1⟩ 5 99 "buy milk").1 99).2 := by
  have h1 : ∀ r ∈ ([⟨1, "alice", "pw"⟩] : List UserService.User),
      r.id ≠ 99 := by decide
  have h2 : ("buy milk" : String) ≠ "" := by decide
  exact ⟨h1, h2,
    (c9_createTask_no_owner_check ⟨[], 1⟩ 5 99 "buy milk"
      ⟨[⟨1, "alice", "pw"⟩], 2⟩ h1 h2).2⟩

/-- The network oracle used by the concrete frontend witnesses: `listTasks`
answers 200 with one todo, `createTask` answers 201, `updateTask` and
`deleteTask` answer 200. -/
def okEnv : Frontend.Env := fun r =>
  match r with
  | .listTasks _ => ⟨200, [⟨1, "x", 0⟩]⟩
  | .createTask _ _ => ⟨201, []⟩
  | .updateTask _ _ => ⟨200, []⟩
  | .deleteTask _ => ⟨200, []⟩

/-- Claim C1: with a live session, each of the three mutating handlers
(`add_todo`, `delete_todo`, `edit_todo`) behaves as mutate-then-refetch.
If the mutation response is success (201 for create, 200 for the others)
and the re-fetch answers 200 (the Task Store's list endpoint always does,
by `c4_listTasks`), the handler sends exactly the mutation followed by a
fresh `listTasks` for the current owner and replaces the `todos` list
wholesale with the fetched body; on any non-success mutation status, the
global state is left completely unchanged and only the failure notice is
surfaced. -/
theorem c1_mutate_then_refetch (env : Frontend.Env) (u : Frontend.Session)
    (ts : List TodoService.TodoView) (d nd : String) (tid : Nat)
    (hfetch : (env (.listTasks u.id)).status = 200) :
    (((env (.createTask u.id d)).status = 201 →
      Frontend.add_todo env ⟨some u, ts⟩ d =
        ⟨⟨some u, (env (.listTasks u.id)).body⟩,
          [.createTask u.id d, .listTasks u.id], ["Todo added!"]⟩) ∧
    ((env (.createTask u.id d)).status ≠ 201 →
      Frontend.add_todo env ⟨some u, ts⟩ d =
        ⟨⟨some u, ts⟩, [.createTask u.id d], ["Failed to add todo!"]⟩)) ∧
    (((env (.deleteTask tid)).status = 200 →
      Frontend.delete_todo env ⟨some u, ts⟩ tid =
        ⟨⟨some u, (env (.listTasks u.id)).body⟩,
          [.deleteTask tid, .listTasks u.id], ["Todo deleted!"]⟩) ∧
    ((env (.deleteTask tid)).status ≠ 200 →
      Frontend.delete_todo env ⟨some u, ts⟩ tid =
        ⟨⟨some u, ts⟩, [.deleteTask tid], ["Failed to delete todo!"]⟩)) ∧
    (((env (.updateTask tid nd)).status = 200 →
      Frontend.edit_todo env ⟨some u, ts⟩ tid nd =
        ⟨⟨some u, (env (.listTasks u.id)).body⟩,
          [.updateTask tid nd, .listTasks u.id], ["Todo edited!"]⟩) ∧
    ((env (.updateTask tid nd)).status ≠ 200 →
      Frontend.edit_todo env ⟨some u, ts⟩ tid nd =
        ⟨⟨some u, ts⟩, [.updateTask tid nd], ["Failed to edit todo!"]⟩)) := by
  have hload : Frontend.load_todos env ⟨some u, ts⟩ =
      ⟨⟨some u, (env (.listTasks u.id)).body⟩, [.listTasks u.id], []⟩ := by
    simp [Frontend.load_todos, hfetch]
  refine ⟨⟨?_, ?_⟩, ⟨?_, ?_⟩, ⟨?_, ?_⟩⟩
  · intro hmut
    simp [Frontend.add_todo, hmut, hload]
  · intro hmut
    simp [Frontend.add_todo, hmut]
  · intro hmut
    simp [Frontend.delete_todo, hmut, hload]
  · intro hmut
    simp [Frontend.delete_todo, hmut]
  · intro hmut
    simp [Frontend.edit_todo, hmut, hload]
  · intro hmut
    simp [Frontend.edit_todo, hmut]

/-- Witness for C1: a concrete successful add with a live session. -/
theorem c1_witness :
    (okEnv (.listTasks 1)).status = 200 ∧
    (okEnv (.createTask 1 "x")).status = 201 ∧
    Frontend.add_todo okEnv ⟨some ⟨1, "alice"⟩, []⟩ "x" =
      ⟨⟨some ⟨1, "alice"⟩, [⟨1, "x", 0⟩]⟩,
        [.createTask 1 "x", .listTasks 1], ["Todo added!"]⟩ :=
  ⟨rfl, rfl,
    ((c1_mutate_then_refetch okEnv ⟨1, "alice"⟩ [] "x" "y" 5 rfl).1).1 rfl⟩

/-- Claim C2, counterexample: with no session at all (`current_user =
none`, the state after logout or before any login), invoking the delete
handler still sends a `deleteTask` request to the todo service: the
presentation layer does not check `current_user` on this path. -/
theorem c2_counterexample :
    (Frontend.FrontendState.mk none []).current_user = none ∧
    (Frontend.delete_todo okEnv ⟨none, []⟩ 5).requests =
      [Frontend.Request.deleteTask 5] :=
  ⟨rfl, rfl⟩

/-- Claim C2, amended: only `load_todos` and `add_todo` guard on
`current_user` — without a session they send nothing.  `delete_todo` and
`edit_todo` send their single mutation request to the todo service without
checking the session (only their subsequent re-fetch is guarded, so exactly
the one unguarded mutation request goes out). -/
theorem c2_session_guard (env : Frontend.Env)
    (ts : List TodoService.TodoView) (d nd : String) (tid : Nat) :
    (Frontend.load_todos env ⟨none, ts⟩).requests = [] ∧
    (Frontend.add_todo env ⟨none, ts⟩ d).requests = [] ∧
    (Frontend.delete_todo env ⟨none, ts⟩ tid).requests =
      [Frontend.Request.deleteTask tid] ∧
    (Frontend.edit_todo env ⟨none, ts⟩ tid nd).requests =
      [Frontend.Request.updateTask tid nd] := by
  have hload : Frontend.load_todos env ⟨none, ts⟩ = ⟨⟨none, ts⟩, [], []⟩ :=
    rfl
  refine ⟨rfl, rfl, ?_, ?_⟩
  · by_cases h : (env (Frontend.Request.deleteTask tid)).status = 200 <;>
      simp [Frontend.delete_todo, h, hload]
  · by_cases h : (env (Frontend.Request.updateTask tid nd)).status = 200 <;>
      simp [Frontend.edit_todo, h, hload]
